import Mathlib

/-!
Verification of the Hohonu QARTOD configuration tool.

Shallow embedding of the repository sources (src/app.py, src/qc_helpers.py,
src/hohonu_api.py, src/greenstream_api.py, src/things_api.py,
src/regions/model.py).  Real values are modelled as rationals; a pandas
dataframe is modelled as a list of named columns whose cells are optional
rationals (a missing cell stands for NaN).  The ioos_qc engine invoked by
qc_helpers.run_qc is not part of the sources, so the test evaluators, the
aggregate and the store naming are modelled from the specification; those
definitions carry a doc comment starting with Modelled from the spec.
-/

/-- A dataframe cell: a rational value, or missing (NaN). -/
abbrev Cell := Option ℚ

/-- A pandas dataframe modelled as an ordered list of named columns. -/
structure DataFrame where
  cols : List (String × List Cell)
  deriving DecidableEq, Repr

/-- Look a column name up in a list of named columns (first match wins,
as pandas column selection does for unique names). -/
def lookupCol : List (String × List Cell) → String → Option (List Cell)
  | [], _ => none
  | c :: rest, n => if c.1 = n then some c.2 else lookupCol rest n

/-- Column selection data[name], as an optional column. -/
def DataFrame.find? (df : DataFrame) (n : String) : Option (List Cell) :=
  lookupCol df.cols n

/-- Column selection data[name], defaulting to the empty column. -/
def DataFrame.column (df : DataFrame) (n : String) : List Cell :=
  (df.find? n).getD []

/-- Number of rows, read off the first column. -/
def DataFrame.nrows (df : DataFrame) : ℕ :=
  ((df.cols.head?).map (fun c => c.2.length)).getD 0

/-- Every column has the same length: the shape invariant of a real
pandas dataframe. -/
def DataFrame.Wellformed (df : DataFrame) : Prop :=
  ∀ c ∈ df.cols, c.2.length = df.nrows

/-- Column assignment data[name] = vals: replace the column when the name
is present, append it otherwise. -/
def setCols (cols : List (String × List Cell)) (n : String) (vals : List Cell) :
    List (String × List Cell) :=
  if cols.any (fun c => c.1 = n) then
    cols.map (fun c => if c.1 = n then (n, vals) else c)
  else cols ++ [(n, vals)]

/-- Column assignment on a dataframe. -/
def DataFrame.setCol (df : DataFrame) (n : String) (vals : List Cell) : DataFrame :=
  ⟨setCols df.cols n vals⟩

/-- QARTOD flag, as in the domain standard. -/
inductive QcFlag where
  | PASS
  | NOT_EVALUATED
  | SUSPECT
  | FAIL
  deriving DecidableEq, Repr

/-- Severity rank realising the total order FAIL > SUSPECT > NOT_EVALUATED > PASS. -/
def flagRank : QcFlag → ℕ
  | .PASS => 0
  | .NOT_EVALUATED => 1
  | .SUSPECT => 2
  | .FAIL => 3

/-- Numeric serialization of a flag: PASS=1, NOT_EVALUATED=2, SUSPECT=3, FAIL=4. -/
def flagToQ : QcFlag → ℚ
  | .PASS => 1
  | .NOT_EVALUATED => 2
  | .SUSPECT => 3
  | .FAIL => 4

/-- A flag sequence as a dataframe column of numeric flag values. -/
def flagCells (fs : List QcFlag) : List Cell :=
  fs.map (fun g => some (flagToQ g))

/-- Modelled from the spec: the worse of two flags under
FAIL > SUSPECT > NOT_EVALUATED > PASS (section 4.5). -/
def worstFlag (a b : QcFlag) : QcFlag :=
  if flagRank a ≤ flagRank b then b else a

/-- Modelled from the spec: the rollup of the flags one index received from
the enabled tests; with no flags at all the rollup is NOT_EVALUATED
(section 4.5). -/
def rollup1 : List QcFlag → QcFlag
  | [] => .NOT_EVALUATED
  | g :: rest => rest.foldl worstFlag g

/-- Modelled from the spec: the aggregate flag sequence over a series of
length n, taking at each index the worst flag across the given per-test
flag sequences (section 4.5, ioos_qc compute_aggregate). -/
def rollupSeq (seqs : List (List QcFlag)) (n : ℕ) : List QcFlag :=
  (List.range n).map (fun i => rollup1 (seqs.filterMap (fun s => s[i]?)))

/-- An observation series: (timestamp in seconds, optional value). -/
abbrev Series := List (ℚ × Cell)

/-- Modelled from the spec: the gross range test, spans given as
(lower, upper) pairs (section 4.1, ioos_qc gross_range_test). -/
def gross_range_test (suspect_span fail_span : ℚ × ℚ) (series : Series) : List QcFlag :=
  series.map (fun ob =>
    match ob.2 with
    | none => QcFlag.NOT_EVALUATED
    | some x =>
      if x < fail_span.1 ∨ fail_span.2 < x then QcFlag.FAIL
      else if x < suspect_span.1 ∨ suspect_span.2 < x then QcFlag.SUSPECT
      else QcFlag.PASS)

/-- Modelled from the spec: the rate of change scan after the first
observation, carrying the immediately preceding observation
(section 4.2, ioos_qc rate_of_change_test). -/
def rate_of_change_go (threshold : ℚ) (prev : ℚ × Cell) : Series → List QcFlag
  | [] => []
  | ob :: rest =>
    (match prev.2, ob.2 with
      | some pv, some v =>
        if threshold * (ob.1 - prev.1) < |v - pv| then QcFlag.SUSPECT else QcFlag.PASS
      | _, _ => QcFlag.NOT_EVALUATED) :: rate_of_change_go threshold ob rest

/-- Modelled from the spec: the rate of change test; the first observation
is NOT_EVALUATED (section 4.2, ioos_qc rate_of_change_test). -/
def rate_of_change_test (threshold : ℚ) : Series → List QcFlag
  | [] => []
  | ob :: rest => QcFlag.NOT_EVALUATED :: rate_of_change_go threshold ob rest

/-- Modelled from the spec: the spike flag of one interior observation from
its two neighbors (section 4.3, ioos_qc spike_test). -/
def spike_flag (suspect_threshold fail_threshold : ℚ) (a b c : Cell) : QcFlag :=
  match a, b, c with
  | some x, some y, some z =>
    let magnitude := |y - (x + z) / 2| - |z - x| / 2
    if fail_threshold ≤ magnitude then QcFlag.FAIL
    else if suspect_threshold ≤ magnitude then QcFlag.SUSPECT
    else QcFlag.PASS
  | _, _, _ => QcFlag.NOT_EVALUATED

/-- Modelled from the spec: the spike test; boundary observations and
observations with a missing neighbor are NOT_EVALUATED
(section 4.3, ioos_qc spike_test). -/
def spike_test (suspect_threshold fail_threshold : ℚ) (series : Series) : List QcFlag :=
  (List.range series.length).map (fun i =>
    if i = 0 ∨ i + 1 = series.length then QcFlag.NOT_EVALUATED
    else
      spike_flag suspect_threshold fail_threshold
        ((series[i - 1]?).bind (fun p => p.2))
        ((series[i]?).bind (fun p => p.2))
        ((series[i + 1]?).bind (fun p => p.2)))

/-- Modelled from the spec: the flat line forward scan carrying the running
reference value and the start time of the current flat run
(section 4.4, ioos_qc flat_line_test). -/
def flat_line_go (tolerance suspect_threshold fail_threshold : ℚ)
    (refVal runStart : ℚ) : Series → List QcFlag
  | [] => []
  | (t, v) :: rest =>
    match v with
    | none => QcFlag.NOT_EVALUATED ::
        flat_line_go tolerance suspect_threshold fail_threshold refVal runStart rest
    | some x =>
      if tolerance < |x - refVal| then
        QcFlag.PASS :: flat_line_go tolerance suspect_threshold fail_threshold x t rest
      else
        (if fail_threshold ≤ t - runStart then QcFlag.FAIL
         else if suspect_threshold ≤ t - runStart then QcFlag.SUSPECT
         else QcFlag.PASS) ::
          flat_line_go tolerance suspect_threshold fail_threshold refVal runStart rest

/-- Modelled from the spec: the flat line test
(section 4.4, ioos_qc flat_line_test). -/
def flat_line_test (tolerance suspect_threshold fail_threshold : ℚ)
    (series : Series) : List QcFlag :=
  match series with
  | [] => []
  | (t, v) :: _ =>
    flat_line_go tolerance suspect_threshold fail_threshold (v.getD 0) t series

/-- Per-test threshold configuration, a tagged union keyed by test name
as the dictionaries built in src/app.py. -/
inductive TestConfig where
  | grossRange (suspect_span fail_span : ℚ × ℚ)
  | rateOfChange (threshold : ℚ)
  | spike (suspect_threshold fail_threshold : ℚ)
  | flatLine (tolerance suspect_threshold fail_threshold : ℚ)
  deriving DecidableEq, Repr

/-- Modelled from the spec: dispatch one configured test on a series
(ioos_qc stream run). -/
def run_test : TestConfig → Series → List QcFlag
  | .grossRange ss fs => gross_range_test ss fs
  | .rateOfChange th => rate_of_change_test th
  | .spike s f => spike_test s f
  | .flatLine tol s f => flat_line_test tol s f

/-- Modelled from the spec: ioos_qc Config for one stream, a mapping
stream name to the qartod test mapping, as built in src/app.py. -/
structure Config where
  stream : String
  qartod : List (String × TestConfig)
  deriving DecidableEq, Repr

/-- The observation series run_qc works on: the time column zipped with
the configured stream column. -/
def qcSeries (df : DataFrame) (cfg : Config) : Series :=
  List.zipWith (fun t v => (t.getD 0, v)) (df.column "time") (df.column cfg.stream)

/-- The per-test flag sequences computed for a run. -/
def testFlagSequences (df : DataFrame) (cfg : Config) : List (String × List QcFlag) :=
  cfg.qartod.map (fun tc => (tc.1, run_test tc.2 (qcSeries df cfg)))

/-- Modelled from the spec: the column name the ioos_qc PandasStore gives
the aggregate computed under a given name (section 6 stable keys). -/
def compute_aggregate_column_name (name : String) : String :=
  "qartod_" ++ name

/-- src/qc_helpers.py run_qc: run the config, compute the aggregate under
the name qc_rollup, and concatenate the source data with the per-test flag
columns and the rollup column. -/
def run_qc (df : DataFrame) (cfg : Config) : DataFrame :=
  ⟨df.cols
    ++ (testFlagSequences df cfg).map
        (fun tc => (cfg.stream ++ "_qartod_" ++ tc.1, flagCells tc.2))
    ++ [(compute_aggregate_column_name "qc_rollup",
        flagCells (rollupSeq ((testFlagSequences df cfg).map Prod.snd)
          (qcSeries df cfg).length))]⟩

/-- Errors raised by the plot helpers: a pandas KeyError carrying its
message. -/
inductive PlotError where
  | keyError (msg : String)
  deriving DecidableEq, Repr

/-- src/qc_helpers.py plot_results, data-access portion: read the time
column, the observation column, and the per-test flag column named
var_name + _qartod_ + test_name; a missing flag column raises a KeyError
naming it together with the dataframe columns. -/
def plot_results_read (data : DataFrame) (test_name var_name : String) :
    Except PlotError (List Cell × List Cell × List Cell) :=
  match data.find? "time" with
  | none => .error (.keyError "time")
  | some time =>
    match data.find? var_name with
    | none => .error (.keyError var_name)
    | some obs =>
      let qc_test_column := var_name ++ "_qartod_" ++ test_name
      match data.find? qc_test_column with
      | none => .error (.keyError (qc_test_column ++ " is not in the dataframe. "
          ++ String.intercalate ", " (data.cols.map Prod.fst)))
      | some qc_test => .ok (time, obs, qc_test)

/-- Default var_name of plot_results and plot_aggregate in
src/qc_helpers.py. -/
def plot_default_var_name : String := "navd88_meters"

/-- Default aggregate_name of plot_aggregate in src/qc_helpers.py. -/
def plot_aggregate_default_aggregate_name : String := "qartod_qc_rollup"

/-- src/qc_helpers.py plot_aggregate, data-access portion: read the time
column, the observation column, and the rollup column named by
aggregate_name. -/
def plot_aggregate_read (data : DataFrame) (var_name aggregate_name : String) :
    Except PlotError (List Cell × List Cell × List Cell) :=
  match data.find? "time" with
  | none => .error (.keyError "time")
  | some time =>
    match data.find? var_name with
    | none => .error (.keyError var_name)
    | some obs =>
      match data.find? aggregate_name with
      | none => .error (.keyError aggregate_name)
      | some qc_test => .ok (time, obs, qc_test)

/-- The KeyError plot_results raises for a missing per-test flag column:
it names the column var_name ++ _qartod_ ++ test_name in its message. -/
def qcColumnKeyError (data : DataFrame) (var_name test_name : String) : PlotError :=
  .keyError (var_name ++ "_qartod_" ++ test_name ++ " is not in the dataframe. "
    ++ String.intercalate ", " (data.cols.map Prod.fst))

/-- np.ma.masked_where applied to one cell: mask the value when the
condition holds. -/
def masked_where (cond : Bool) (v : Cell) : Cell :=
  if cond then none else v

/-- src/qc_helpers.py plot_results: qc_pass selection, masked where the
flag differs from 1. -/
def plot_results_qc_pass (flag : ℚ) (obs : Cell) : Cell :=
  masked_where (flag ≠ 1) obs

/-- src/qc_helpers.py plot_results: qc_suspect selection, masked where the
flag differs from 3. -/
def plot_results_qc_suspect (flag : ℚ) (obs : Cell) : Cell :=
  masked_where (flag ≠ 3) obs

/-- src/qc_helpers.py plot_results: qc_fail selection, masked where the
flag differs from 4. -/
def plot_results_qc_fail (flag : ℚ) (obs : Cell) : Cell :=
  masked_where (flag ≠ 4) obs

/-- src/qc_helpers.py plot_results: qc_notrun selection, masked where the
flag differs from 2. -/
def plot_results_qc_notrun (flag : ℚ) (obs : Cell) : Cell :=
  masked_where (flag ≠ 2) obs

/-- src/qc_helpers.py plot_aggregate: qc_pass selection. -/
def plot_aggregate_qc_pass (flag : ℚ) (obs : Cell) : Cell :=
  masked_where (flag ≠ 1) obs

/-- src/qc_helpers.py plot_aggregate: qc_suspect selection. -/
def plot_aggregate_qc_suspect (flag : ℚ) (obs : Cell) : Cell :=
  masked_where (flag ≠ 3) obs

/-- src/qc_helpers.py plot_aggregate: qc_fail selection. -/
def plot_aggregate_qc_fail (flag : ℚ) (obs : Cell) : Cell :=
  masked_where (flag ≠ 4) obs

/-- src/qc_helpers.py plot_aggregate: qc_notrun selection. -/
def plot_aggregate_qc_notrun (flag : ℚ) (obs : Cell) : Cell :=
  masked_where (flag ≠ 2) obs

/-- FEET_TO_METERS = 0.3048, as in src/app.py, src/hohonu_api.py and
src/regions/model.py. -/
def FEET_TO_METERS : ℚ := 0.3048

/-- src/hohonu_api.py hohonu_response_to_df: build a dataframe with the
time column, the observations converted from feet to meters as
navd88_meters, and the forecast converted likewise; the forecast column is
deleted when all its entries are missing. -/
def hohonu_response_to_df (times observed forecast : List Cell) : DataFrame :=
  let navd := observed.map (Option.map (fun v => v * FEET_TO_METERS))
  let fc := forecast.map (Option.map (fun v => v * FEET_TO_METERS))
  if fc.all Option.isNone then
    ⟨[("time", times), ("navd88_meters", navd)]⟩
  else
    ⟨[("time", times), ("navd88_meters", navd), ("forecast", fc)]⟩

/-- Distance-to-surface normalization shared by the Greenstream and Things
Network adapters: station elevation minus the raw millimeter distance over
1000. -/
def distance_to_navd88 (navd88_elevation_meters mm : ℚ) : ℚ :=
  navd88_elevation_meters - mm / 1000

/-- src/greenstream_api.py load_greenstream_data_and_config, normalization
line: data[navd88_meters] = navd88_elevation_meters - data[mm] / 1000. -/
def greenstream_add_navd88 (df : DataFrame) (navd88_elevation_meters : ℚ) :
    DataFrame :=
  df.setCol "navd88_meters"
    ((df.column "mm").map (Option.map (distance_to_navd88 navd88_elevation_meters)))

/-- src/things_api.py ThingsApi.fetch_data, normalization lines: copy the
recieved_at column to time, then set
df[navd88_meters] = navd88_elevation_meters - df[distance] / 1000. -/
def things_fetch_data_normalize (df : DataFrame) (navd88_elevation_meters : ℚ) :
    DataFrame :=
  let withTime := df.setCol "time" (df.column "recieved_at")
  withTime.setCol "navd88_meters"
    ((withTime.column "distance").map
      (Option.map (distance_to_navd88 navd88_elevation_meters)))

/-- src/app.py: the gross range test config dictionary; both spans are
built from the fail limit inputs, the suspect limit inputs in scope are not
used. -/
def gross_range_test_config
    (gross_suspect_lower_limit gross_suspect_upper_limit
      gross_fail_lower_limit gross_fail_upper_limit : ℚ) :
    List (String × TestConfig) :=
  [("gross_range_test",
    TestConfig.grossRange
      (gross_fail_lower_limit, gross_fail_upper_limit)
      (gross_fail_lower_limit, gross_fail_upper_limit))]

/-- src/app.py: the rate of change test config dictionary. -/
def rate_of_change_test_config (rate_threshold : ℚ) : List (String × TestConfig) :=
  [("rate_of_change_test", TestConfig.rateOfChange rate_threshold)]

/-- src/app.py: the spike test config dictionary. -/
def spike_test_config (spike_suspect_threshold spike_fail_threshold : ℚ) :
    List (String × TestConfig) :=
  [("spike_test", TestConfig.spike spike_suspect_threshold spike_fail_threshold)]

/-- src/app.py: the flat line test config dictionary. -/
def flat_line_test_config
    (flat_line_tolerance flat_line_suspect_threshold flat_line_fail_threshold : ℚ) :
    List (String × TestConfig) :=
  [("flat_line_test",
    TestConfig.flatLine flat_line_tolerance flat_line_suspect_threshold
      flat_line_fail_threshold)]

/-- Does the qartod mapping contain an entry for the given test name? -/
def containsKey (m : List (String × TestConfig)) (k : String) : Bool :=
  m.any (fun c => c.1 = k)

/-- src/app.py, aggregated results section: the qartod mapping merged from
the per-test config dictionaries of the enabled tests, in source order. -/
def app_qartod (gross_range_test_toggle rate_of_change_test_toggle
    spike_test_toggle flat_line_test_toggle : Bool)
    (gross_suspect_lower_limit gross_suspect_upper_limit
      gross_fail_lower_limit gross_fail_upper_limit
      rate_threshold spike_suspect_threshold spike_fail_threshold
      flat_line_tolerance flat_line_suspect_threshold flat_line_fail_threshold : ℚ) :
    List (String × TestConfig) :=
  (if gross_range_test_toggle then
    gross_range_test_config gross_suspect_lower_limit gross_suspect_upper_limit
      gross_fail_lower_limit gross_fail_upper_limit
  else [])
  ++ (if rate_of_change_test_toggle then rate_of_change_test_config rate_threshold
      else [])
  ++ (if spike_test_toggle then
        spike_test_config spike_suspect_threshold spike_fail_threshold
      else [])
  ++ (if flat_line_test_toggle then
        flat_line_test_config flat_line_tolerance flat_line_suspect_threshold
          flat_line_fail_threshold
      else [])

/-- The manual datums mapping in the exported configuration. -/
structure Datums where
  manual_datums : List (String × ℚ)
  deriving DecidableEq, Repr

/-- One stream entry of the exported qc section. -/
structure StreamSection where
  qartod : List (String × TestConfig)
  deriving DecidableEq, Repr

/-- One context entry of the exported qc section. -/
structure ContextSection where
  streams : List (String × StreamSection)
  deriving DecidableEq, Repr

/-- The qartod part of the exported qc section. -/
structure QartodSection where
  contexts : List ContextSection
  deriving DecidableEq, Repr

/-- The qc part of the exported configuration. -/
structure QCSection where
  qartod : QartodSection
  deriving DecidableEq, Repr

/-- The exported station configuration mapping built in src/app.py. -/
structure AppConfig where
  station_id : String
  start_dt : String
  latitude : ℚ
  longitude : ℚ
  datums : Datums
  qc : QCSection
  summary : Option String
  deriving DecidableEq, Repr

/-- src/app.py, configuration section: the exported config mapping with
station identifiers, coordinates, manual datums, and the nested
qc.qartod.contexts[0].streams.observed.qartod structure holding the qartod
threshold mapping. -/
def app_station_config (station_id start_dt : String) (latitude longitude : ℚ)
    (datums : List (String × ℚ)) (qartod : List (String × TestConfig))
    (summary : Option String) : AppConfig :=
  { station_id := station_id
    start_dt := start_dt
    latitude := latitude
    longitude := longitude
    datums := ⟨datums⟩
    qc := ⟨⟨[⟨[("observed", ⟨qartod⟩)]⟩]⟩⟩
    summary := summary }

/-- src/app.py, aggregated results plus configuration sections: the qartod
mapping is assembled once from the toggles, passed to run_qc for the
combined run, and embedded in the exported configuration. -/
def app_aggregated_section (data : DataFrame)
    (gross_range_test_toggle rate_of_change_test_toggle
      spike_test_toggle flat_line_test_toggle : Bool)
    (gross_suspect_lower_limit gross_suspect_upper_limit
      gross_fail_lower_limit gross_fail_upper_limit
      rate_threshold spike_suspect_threshold spike_fail_threshold
      flat_line_tolerance flat_line_suspect_threshold flat_line_fail_threshold : ℚ)
    (station_id start_dt : String) (latitude longitude : ℚ)
    (datums : List (String × ℚ)) (summary : Option String) :
    DataFrame × AppConfig :=
  let qartod := app_qartod gross_range_test_toggle rate_of_change_test_toggle
    spike_test_toggle flat_line_test_toggle
    gross_suspect_lower_limit gross_suspect_upper_limit
    gross_fail_lower_limit gross_fail_upper_limit
    rate_threshold spike_suspect_threshold spike_fail_threshold
    flat_line_tolerance flat_line_suspect_threshold flat_line_fail_threshold
  (run_qc data ⟨"observed", qartod⟩,
    app_station_config station_id start_dt latitude longitude datums qartod summary)

/-- src/regions/model.py GrossRange: default values for gross range tests. -/
structure GrossRange where
  suspect_upper_limit : Option ℚ
  suspect_lower_limit : Option ℚ
  fail_upper_limit : Option ℚ
  fail_lower_limit : Option ℚ
  deriving DecidableEq, Repr

/-- src/regions/model.py RateOfChange: default values for rate of change
tests. -/
structure RateOfChange where
  rate_threshold : Option ℚ
  deriving DecidableEq, Repr

/-- src/regions/model.py Spike: default values for spike tests. -/
structure Spike where
  suspect_threshold : Option ℚ
  fail_threshold : Option ℚ
  deriving DecidableEq, Repr

/-- src/regions/model.py FlatLine: default values for flat line tests. -/
structure FlatLine where
  tolerance : Option ℚ
  suspect_threshold : Option ℚ
  fail_threshold : Option ℚ
  deriving DecidableEq, Repr

/-- src/regions/model.py DefaultValues: default values for QC tests. -/
structure DefaultValues where
  gross_range : GrossRange
  rate_of_change : RateOfChange
  spike : Spike
  flat_line : FlatLine
  deriving DecidableEq, Repr

/-- src/regions/model.py GulfOfMaine.calculate_defaults. -/
def GulfOfMaine.calculate_defaults (mllw mhhw : ℚ) : DefaultValues :=
  { gross_range :=
      { suspect_upper_limit := some (mhhw + 6 * FEET_TO_METERS)
        suspect_lower_limit := some (mllw - 4.5 * FEET_TO_METERS)
        fail_upper_limit := some (mhhw + 6 * FEET_TO_METERS)
        fail_lower_limit := some (mllw - 4.5 * FEET_TO_METERS) }
    rate_of_change := { rate_threshold := some (0.75 * FEET_TO_METERS) }
    spike :=
      { suspect_threshold := some (0.75 * FEET_TO_METERS)
        fail_threshold := some (1.5 * FEET_TO_METERS) }
    flat_line :=
      { tolerance := some (0.1 * FEET_TO_METERS)
        suspect_threshold := some (2 * 60 * 60)
        fail_threshold := some (3 * 60 * 60) } }

lemma lookupCol_append_of_none {l1 : List (String × List Cell)}
    (l2 : List (String × List Cell)) (n : String) (h : lookupCol l1 n = none) :
    lookupCol (l1 ++ l2) n = lookupCol l2 n := by
  induction l1 with
  | nil => rfl
  | cons c rest ih =>
    by_cases hc : c.1 = n
    · rw [lookupCol, if_pos hc] at h
      cases h
    · rw [lookupCol, if_neg hc] at h
      rw [List.cons_append, lookupCol, if_neg hc]
      exact ih h

lemma lookupCol_append_of_some {l1 : List (String × List Cell)}
    (l2 : List (String × List Cell)) {n : String} {v : List Cell}
    (h : lookupCol l1 n = some v) : lookupCol (l1 ++ l2) n = some v := by
  induction l1 with
  | nil => cases h
  | cons c rest ih =>
    by_cases hc : c.1 = n
    · rw [lookupCol, if_pos hc] at h
      rw [List.cons_append, lookupCol, if_pos hc]
      exact h
    · rw [lookupCol, if_neg hc] at h
      rw [List.cons_append, lookupCol, if_neg hc]
      exact ih h

lemma lookupCol_mem {cols : List (String × List Cell)} {n : String} {v : List Cell}
    (h : lookupCol cols n = some v) : (n, v) ∈ cols := by
  induction cols with
  | nil => cases h
  | cons c rest ih =>
    by_cases hc : c.1 = n
    · rw [lookupCol, if_pos hc] at h
      have hv : c.2 = v := by injection h
      have : c = (n, v) := by
        cases c
        simp_all
      rw [← this]
      exact List.mem_cons_self _ _
    · rw [lookupCol, if_neg hc] at h
      exact List.mem_cons_of_mem _ (ih h)

lemma lookupCol_map_replace {cols : List (String × List Cell)} {n : String}
    (vals : List Cell) (h : cols.any (fun c => c.1 = n) = true) :
    lookupCol (cols.map (fun c => if c.1 = n then (n, vals) else c)) n = some vals := by
  induction cols with
  | nil => cases h
  | cons c rest ih =>
    by_cases hc : c.1 = n
    · simp [lookupCol, hc]
    · have h2 : rest.any (fun c => c.1 = n) = true := by
        simpa [List.any_cons, hc] using h
      simp only [List.map_cons, if_neg hc]
      rw [lookupCol, if_neg hc]
      exact ih h2

lemma lookupCol_map_replace_ne {n m : String} (cols : List (String × List Cell))
    (vals : List Cell) (h : n ≠ m) :
    lookupCol (cols.map (fun c => if c.1 = n then (n, vals) else c)) m =
      lookupCol cols m := by
  induction cols with
  | nil => rfl
  | cons c rest ih =>
    by_cases hc : c.1 = n
    · have hcm : ¬c.1 = m := by rw [hc]; exact h
      simp only [List.map_cons, if_pos hc]
      rw [lookupCol, if_neg h, lookupCol, if_neg hcm]
      exact ih
    · simp only [List.map_cons, if_neg hc]
      rw [lookupCol, lookupCol]
      by_cases hm : c.1 = m
      · rw [if_pos hm, if_pos hm]
      · rw [if_neg hm, if_neg hm]
        exact ih

lemma lookupCol_append_single_ne {n m : String} (cols : List (String × List Cell))
    (vals : List Cell) (h : n ≠ m) :
    lookupCol (cols ++ [(n, vals)]) m = lookupCol cols m := by
  induction cols with
  | nil => simp [lookupCol, h]
  | cons c rest ih =>
    by_cases hm : c.1 = m
    · rw [List.cons_append, lookupCol, if_pos hm, lookupCol, if_pos hm]
    · rw [List.cons_append, lookupCol, if_neg hm, lookupCol, if_neg hm]
      exact ih

lemma lookupCol_setCols_self (cols : List (String × List Cell)) (n : String)
    (vals : List Cell) : lookupCol (setCols cols n vals) n = some vals := by
  unfold setCols
  split
  case isTrue h => exact lookupCol_map_replace vals h
  case isFalse h =>
    have h0 : lookupCol cols n = none := by
      induction cols with
      | nil => rfl
      | cons c rest ih =>
        simp only [List.any_cons, Bool.or_eq_true, decide_eq_true_eq] at h
        push_neg at h
        rw [lookupCol, if_neg h.1]
        exact ih (by simpa using h.2)
    rw [lookupCol_append_of_none _ _ h0]
    simp [lookupCol]

lemma lookupCol_setCols_ne {n m : String} (cols : List (String × List Cell))
    (vals : List Cell) (h : n ≠ m) :
    lookupCol (setCols cols n vals) m = lookupCol cols m := by
  unfold setCols
  split
  · exact lookupCol_map_replace_ne cols vals h
  · exact lookupCol_append_single_ne cols vals h

lemma column_setCol_self (df : DataFrame) (n : String) (vals : List Cell) :
    (df.setCol n vals).column n = vals := by
  simp [DataFrame.column, DataFrame.find?, DataFrame.setCol, lookupCol_setCols_self]

lemma column_setCol_ne (df : DataFrame) {n m : String} (vals : List Cell)
    (h : n ≠ m) : (df.setCol n vals).column m = df.column m := by
  simp [DataFrame.column, DataFrame.find?, DataFrame.setCol, lookupCol_setCols_ne _ _ h]

lemma gross_range_test_length (ss fs : ℚ × ℚ) (s : Series) :
    (gross_range_test ss fs s).length = s.length := by
  simp [gross_range_test]

lemma rate_of_change_go_length (th : ℚ) (prev : ℚ × Cell) (s : Series) :
    (rate_of_change_go th prev s).length = s.length := by
  induction s generalizing prev with
  | nil => rfl
  | cons ob rest ih => simp [rate_of_change_go, ih]

lemma rate_of_change_test_length (th : ℚ) (s : Series) :
    (rate_of_change_test th s).length = s.length := by
  cases s with
  | nil => rfl
  | cons ob rest => simp [rate_of_change_test, rate_of_change_go_length]

lemma spike_test_length (st ft : ℚ) (s : Series) :
    (spike_test st ft s).length = s.length := by
  simp [spike_test]

lemma flat_line_go_length (tol st ft refVal runStart : ℚ) (s : Series) :
    (flat_line_go tol st ft refVal runStart s).length = s.length := by
  induction s generalizing refVal runStart with
  | nil => rfl
  | cons ob rest ih =>
    obtain ⟨t, v⟩ := ob
    cases v
    · simp [flat_line_go, ih]
    · simp only [flat_line_go]
      split <;> simp [ih]

lemma flat_line_test_length (tol st ft : ℚ) (s : Series) :
    (flat_line_test tol st ft s).length = s.length := by
  cases s with
  | nil => rfl
  | cons ob rest =>
    obtain ⟨t, v⟩ := ob
    simp [flat_line_test, flat_line_go_length]

lemma run_test_length (tc : TestConfig) (s : Series) :
    (run_test tc s).length = s.length := by
  cases tc with
  | grossRange ss fs => exact gross_range_test_length ss fs s
  | rateOfChange th => exact rate_of_change_test_length th s
  | spike st ft => exact spike_test_length st ft s
  | flatLine tol st ft => exact flat_line_test_length tol st ft s

lemma rollupSeq_length (seqs : List (List QcFlag)) (n : ℕ) :
    (rollupSeq seqs n).length = n := by
  simp [rollupSeq]

lemma flagRank_worstFlag_left (a b : QcFlag) :
    flagRank a ≤ flagRank (worstFlag a b) := by
  unfold worstFlag
  split
  · assumption
  · exact le_refl _

lemma flagRank_worstFlag_right (a b : QcFlag) :
    flagRank b ≤ flagRank (worstFlag a b) := by
  unfold worstFlag
  split
  · exact le_refl _
  · omega

lemma worstFlag_eq_or (a b : QcFlag) : worstFlag a b = a ∨ worstFlag a b = b := by
  unfold worstFlag
  split
  · right; rfl
  · left; rfl

lemma foldl_worstFlag_ge_init (l : List QcFlag) (a : QcFlag) :
    flagRank a ≤ flagRank (l.foldl worstFlag a) := by
  induction l generalizing a with
  | nil => exact le_refl _
  | cons b rest ih =>
    exact le_trans (flagRank_worstFlag_left a b) (ih (worstFlag a b))

lemma foldl_worstFlag_ge_mem (l : List QcFlag) (a : QcFlag) :
    ∀ g ∈ l, flagRank g ≤ flagRank (l.foldl worstFlag a) := by
  induction l generalizing a with
  | nil => intro g hg; cases hg
  | cons b rest ih =>
    intro g hg
    rcases List.mem_cons.mp hg with h | h
    · subst h
      exact le_trans (flagRank_worstFlag_right a g) (foldl_worstFlag_ge_init rest _)
    · exact ih _ g h

lemma foldl_worstFlag_mem (l : List QcFlag) (a : QcFlag) :
    l.foldl worstFlag a = a ∨ l.foldl worstFlag a ∈ l := by
  induction l generalizing a with
  | nil => left; rfl
  | cons b rest ih =>
    rw [List.foldl_cons]
    rcases ih (worstFlag a b) with h | h
    · rw [h]
      rcases worstFlag_eq_or a b with h2 | h2
      · left; exact h2
      · right; rw [h2]; exact List.mem_cons_self _ _
    · right; exact List.mem_cons_of_mem _ h

lemma rollup1_mem {l : List QcFlag} (h : l ≠ []) : rollup1 l ∈ l := by
  cases l with
  | nil => exact absurd rfl h
  | cons g rest =>
    show rest.foldl worstFlag g ∈ g :: rest
    rcases foldl_worstFlag_mem rest g with h2 | h2
    · rw [h2]; exact List.mem_cons_self _ _
    · exact List.mem_cons_of_mem _ h2

lemma rollup1_ge (l : List QcFlag) :
    ∀ g ∈ l, flagRank g ≤ flagRank (rollup1 l) := by
  cases l with
  | nil => intro g hg; cases hg
  | cons b rest =>
    intro g hg
    rcases List.mem_cons.mp hg with h | h
    · subst h; exact foldl_worstFlag_ge_init rest g
    · exact foldl_worstFlag_ge_mem rest b g h

lemma hohonu_navd88_column (times observed forecast : List Cell) :
    (hohonu_response_to_df times observed forecast).column "navd88_meters" =
      observed.map (Option.map (fun v => v * FEET_TO_METERS)) := by
  unfold hohonu_response_to_df
  simp only []
  split <;> rfl

/-- C1: Unit/Datum normalization follows the two stated formulas: the
Hohonu (feet) adapter stores every native value multiplied by 0.3048 in
the navd88_meters column; the Greenstream and Things Network (millimeter
distance-to-surface) adapters store station_elevation_meters minus
raw_distance_mm / 1000, so for a fixed elevation a larger raw distance
yields a lower water level. -/
theorem C1_unit_datum_normalization
    (times observed forecast : List Cell) (i : ℕ) (v : ℚ)
    (h1 : observed[i]? = some (some v))
    (gdf : DataFrame) (gelev : ℚ) (j : ℕ) (mm : ℚ)
    (h2 : (gdf.column "mm")[j]? = some (some mm))
    (tdf : DataFrame) (telev : ℚ) (k : ℕ) (dist : ℚ)
    (h3 : (tdf.column "distance")[k]? = some (some dist))
    (elev d1 d2 : ℚ) (h4 : d1 < d2) :
    ((hohonu_response_to_df times observed forecast).column "navd88_meters")[i]? =
      some (some (v * FEET_TO_METERS))
    ∧ ((greenstream_add_navd88 gdf gelev).column "navd88_meters")[j]? =
        some (some (gelev - mm / 1000))
    ∧ ((things_fetch_data_normalize tdf telev).column "navd88_meters")[k]? =
        some (some (telev - dist / 1000))
    ∧ distance_to_navd88 elev d2 < distance_to_navd88 elev d1 := by
  refine ⟨?_, ?_, ?_, ?_⟩
  · rw [hohonu_navd88_column]
    simp [List.getElem?_map, h1]
  · rw [greenstream_add_navd88, column_setCol_self]
    simp [List.getElem?_map, h2, distance_to_navd88]
  · rw [things_fetch_data_normalize]
    rw [column_setCol_self, column_setCol_ne _ _ (by decide : "time" ≠ "distance")]
    simp [List.getElem?_map, h3, distance_to_navd88]
  · rw [distance_to_navd88, distance_to_navd88]
    linarith

theorem C1_unit_datum_normalization_witness :
    ([some 2] : List Cell)[0]? = some (some 2)
    ∧ ((DataFrame.mk [("mm", [some 1500])]).column "mm")[0]? = some (some 1500)
    ∧ ((DataFrame.mk [("recieved_at", [some 0]), ("distance", [some 2000])]).column
        "distance")[0]? = some (some 2000)
    ∧ (1 : ℚ) < 2
    ∧ (((hohonu_response_to_df [some 0] [some 2] [none]).column "navd88_meters")[0]? =
        some (some (2 * FEET_TO_METERS))
      ∧ ((greenstream_add_navd88 (DataFrame.mk [("mm", [some 1500])]) 3).column
          "navd88_meters")[0]? = some (some (3 - 1500 / 1000))
      ∧ ((things_fetch_data_normalize
            (DataFrame.mk [("recieved_at", [some 0]), ("distance", [some 2000])]) 5).column
          "navd88_meters")[0]? = some (some (5 - 2000 / 1000))
      ∧ distance_to_navd88 0 2 < distance_to_navd88 0 1) :=
  ⟨rfl, rfl, rfl, by norm_num,
    C1_unit_datum_normalization [some 0] [some 2] [none] 0 2 rfl
      (DataFrame.mk [("mm", [some 1500])]) 3 0 1500 rfl
      (DataFrame.mk [("recieved_at", [some 0]), ("distance", [some 2000])]) 5 0 2000 rfl
      0 1 2 (by norm_num)⟩

/-- C2: the gross range configuration passed to the QC engine has its
suspect_span equal to its fail_span, both built from the fail limit
inputs, so the user-entered suspect limit inputs affect neither the
computed flags nor the exported configuration. -/
theorem C2_gross_suspect_inputs_ignored
    (s1 s2 f1 f2 s1x s2x : ℚ) (df : DataFrame)
    (g r s f : Bool) (rth sst sft tol fst fft : ℚ)
    (station_id start_dt : String) (lat lon : ℚ)
    (datums : List (String × ℚ)) (summary : Option String) :
    gross_range_test_config s1 s2 f1 f2 =
      [("gross_range_test", TestConfig.grossRange (f1, f2) (f1, f2))]
    ∧ gross_range_test_config s1 s2 f1 f2 = gross_range_test_config s1x s2x f1 f2
    ∧ run_qc df ⟨"observed", gross_range_test_config s1 s2 f1 f2⟩ =
        run_qc df ⟨"observed", gross_range_test_config s1x s2x f1 f2⟩
    ∧ app_aggregated_section df g r s f s1 s2 f1 f2 rth sst sft tol fst fft
        station_id start_dt lat lon datums summary =
      app_aggregated_section df g r s f s1x s2x f1 f2 rth sst sft tol fst fft
        station_id start_dt lat lon datums summary :=
  ⟨rfl, rfl, rfl, rfl⟩

/-- C4: plot_results and plot_aggregate select an observation as pass
exactly when its flag equals 1, as not-run exactly when it equals 2, as
suspect exactly when it equals 3, and as fail exactly when it equals 4;
the two functions use the same selections, and over flag values in
{1,2,3,4} the four selections are mutually exclusive and exhaustive. -/
theorem C4_flag_value_mapping (flag obs : ℚ)
    (h : flag = 1 ∨ flag = 2 ∨ flag = 3 ∨ flag = 4) :
    (plot_results_qc_pass flag (some obs) = some obs ↔ flag = 1)
    ∧ (plot_results_qc_notrun flag (some obs) = some obs ↔ flag = 2)
    ∧ (plot_results_qc_suspect flag (some obs) = some obs ↔ flag = 3)
    ∧ (plot_results_qc_fail flag (some obs) = some obs ↔ flag = 4)
    ∧ plot_aggregate_qc_pass flag (some obs) = plot_results_qc_pass flag (some obs)
    ∧ plot_aggregate_qc_notrun flag (some obs) = plot_results_qc_notrun flag (some obs)
    ∧ plot_aggregate_qc_suspect flag (some obs) = plot_results_qc_suspect flag (some obs)
    ∧ plot_aggregate_qc_fail flag (some obs) = plot_results_qc_fail flag (some obs)
    ∧ ((plot_results_qc_pass flag (some obs) = some obs
          ∧ plot_results_qc_notrun flag (some obs) = none
          ∧ plot_results_qc_suspect flag (some obs) = none
          ∧ plot_results_qc_fail flag (some obs) = none)
      ∨ (plot_results_qc_pass flag (some obs) = none
          ∧ plot_results_qc_notrun flag (some obs) = some obs
          ∧ plot_results_qc_suspect flag (some obs) = none
          ∧ plot_results_qc_fail flag (some obs) = none)
      ∨ (plot_results_qc_pass flag (some obs) = none
          ∧ plot_results_qc_notrun flag (some obs) = none
          ∧ plot_results_qc_suspect flag (some obs) = some obs
          ∧ plot_results_qc_fail flag (some obs) = none)
      ∨ (plot_results_qc_pass flag (some obs) = none
          ∧ plot_results_qc_notrun flag (some obs) = none
          ∧ plot_results_qc_suspect flag (some obs) = none
          ∧ plot_results_qc_fail flag (some obs) = some obs)) := by
  rcases h with h | h | h | h <;> subst h <;>
    norm_num [plot_results_qc_pass, plot_results_qc_notrun, plot_results_qc_suspect,
      plot_results_qc_fail, plot_aggregate_qc_pass, plot_aggregate_qc_notrun,
      plot_aggregate_qc_suspect, plot_aggregate_qc_fail, masked_where] <;> simp

theorem C4_flag_value_mapping_witness :
    ((3 : ℚ) = 1 ∨ (3 : ℚ) = 2 ∨ (3 : ℚ) = 3 ∨ (3 : ℚ) = 4)
    ∧ ((plot_results_qc_pass 3 (some 7) = some 7 ↔ (3 : ℚ) = 1)
      ∧ (plot_results_qc_notrun 3 (some 7) = some 7 ↔ (3 : ℚ) = 2)
      ∧ (plot_results_qc_suspect 3 (some 7) = some 7 ↔ (3 : ℚ) = 3)
      ∧ (plot_results_qc_fail 3 (some 7) = some 7 ↔ (3 : ℚ) = 4)
      ∧ plot_aggregate_qc_pass 3 (some 7) = plot_results_qc_pass 3 (some 7)
      ∧ plot_aggregate_qc_notrun 3 (some 7) = plot_results_qc_notrun 3 (some 7)
      ∧ plot_aggregate_qc_suspect 3 (some 7) = plot_results_qc_suspect 3 (some 7)
      ∧ plot_aggregate_qc_fail 3 (some 7) = plot_results_qc_fail 3 (some 7)
      ∧ ((plot_results_qc_pass 3 (some 7) = some 7
            ∧ plot_results_qc_notrun 3 (some 7) = none
            ∧ plot_results_qc_suspect 3 (some 7) = none
            ∧ plot_results_qc_fail 3 (some 7) = none)
        ∨ (plot_results_qc_pass 3 (some 7) = none
            ∧ plot_results_qc_notrun 3 (some 7) = some 7
            ∧ plot_results_qc_suspect 3 (some 7) = none
            ∧ plot_results_qc_fail 3 (some 7) = none)
        ∨ (plot_results_qc_pass 3 (some 7) = none
            ∧ plot_results_qc_notrun 3 (some 7) = none
            ∧ plot_results_qc_suspect 3 (some 7) = some 7
            ∧ plot_results_qc_fail 3 (some 7) = none)
        ∨ (plot_results_qc_pass 3 (some 7) = none
            ∧ plot_results_qc_notrun 3 (some 7) = none
            ∧ plot_results_qc_suspect 3 (some 7) = none
            ∧ plot_results_qc_fail 3 (some 7) = some 7))) :=
  ⟨Or.inr (Or.inr (Or.inl rfl)),
    C4_flag_value_mapping 3 7 (Or.inr (Or.inr (Or.inl rfl)))⟩

/-- C7: the aggregated qartod mapping contains an entry for a test if and
only if the corresponding toggle is enabled, and the combined run computes
one flag sequence per present entry, so a disabled test contributes no
flag sequence. -/
theorem C7_disabled_test_is_absent (g r s f : Bool)
    (gsl gsu gfl gfu rth sst sft tol fst fft : ℚ) (df : DataFrame) :
    containsKey (app_qartod g r s f gsl gsu gfl gfu rth sst sft tol fst fft)
        "gross_range_test" = g
    ∧ containsKey (app_qartod g r s f gsl gsu gfl gfu rth sst sft tol fst fft)
        "rate_of_change_test" = r
    ∧ containsKey (app_qartod g r s f gsl gsu gfl gfu rth sst sft tol fst fft)
        "spike_test" = s
    ∧ containsKey (app_qartod g r s f gsl gsu gfl gfu rth sst sft tol fst fft)
        "flat_line_test" = f
    ∧ (testFlagSequences df
          ⟨"observed", app_qartod g r s f gsl gsu gfl gfu rth sst sft tol fst fft⟩).map
        Prod.fst =
      (app_qartod g r s f gsl gsu gfl gfu rth sst sft tol fst fft).map Prod.fst := by
  refine ⟨?_, ?_, ?_, ?_, ?_⟩
  · cases g <;> cases r <;> cases s <;> cases f <;> rfl
  · cases g <;> cases r <;> cases s <;> cases f <;> rfl
  · cases g <;> cases r <;> cases s <;> cases f <;> rfl
  · cases g <;> cases r <;> cases s <;> cases f <;> rfl
  · simp [testFlagSequences]

/-- C9: the exported configuration artifact contains the station
identifier, coordinates and datum offsets, and its nested
qc.qartod.contexts[0].streams.observed.qartod structure is exactly the
qartod mapping passed to the aggregated run_qc invocation, with no other
QC state in the qc section. -/
theorem C9_exported_config_reproduces_run (data : DataFrame)
    (g r s f : Bool) (gsl gsu gfl gfu rth sst sft tol fst fft : ℚ)
    (station_id start_dt : String) (lat lon : ℚ)
    (datums : List (String × ℚ)) (summary : Option String) :
    (app_aggregated_section data g r s f gsl gsu gfl gfu rth sst sft tol fst fft
        station_id start_dt lat lon datums summary).1 =
      run_qc data
        ⟨"observed", app_qartod g r s f gsl gsu gfl gfu rth sst sft tol fst fft⟩
    ∧ (app_aggregated_section data g r s f gsl gsu gfl gfu rth sst sft tol fst fft
        station_id start_dt lat lon datums summary).2.qc =
      ⟨⟨[⟨[("observed",
          ⟨app_qartod g r s f gsl gsu gfl gfu rth sst sft tol fst fft⟩)]⟩]⟩⟩
    ∧ (app_aggregated_section data g r s f gsl gsu gfl gfu rth sst sft tol fst fft
        station_id start_dt lat lon datums summary).2.station_id = station_id
    ∧ (app_aggregated_section data g r s f gsl gsu gfl gfu rth sst sft tol fst fft
        station_id start_dt lat lon datums summary).2.start_dt = start_dt
    ∧ (app_aggregated_section data g r s f gsl gsu gfl gfu rth sst sft tol fst fft
        station_id start_dt lat lon datums summary).2.latitude = lat
    ∧ (app_aggregated_section data g r s f gsl gsu gfl gfu rth sst sft tol fst fft
        station_id start_dt lat lon datums summary).2.longitude = lon
    ∧ (app_aggregated_section data g r s f gsl gsu gfl gfu rth sst sft tol fst fft
        station_id start_dt lat lon datums summary).2.datums = ⟨datums⟩ :=
  ⟨rfl, rfl, rfl, rfl, rfl, rfl, rfl⟩

/-- C10: for mllw and mhhw with mllw at most mhhw, the Gulf of Maine gross
range defaults put fail_lower = suspect_lower = mllw - 4.5 ft and
suspect_upper = fail_upper = mhhw + 6 ft (in meters), satisfying
fail_lower <= suspect_lower <= suspect_upper <= fail_upper. -/
theorem C10_gulf_of_maine_gross_range_defaults (mllw mhhw : ℚ)
    (h : mllw ≤ mhhw) :
    (GulfOfMaine.calculate_defaults mllw mhhw).gross_range.fail_lower_limit =
      some (mllw - 4.5 * FEET_TO_METERS)
    ∧ (GulfOfMaine.calculate_defaults mllw mhhw).gross_range.suspect_lower_limit =
        some (mllw - 4.5 * FEET_TO_METERS)
    ∧ (GulfOfMaine.calculate_defaults mllw mhhw).gross_range.suspect_upper_limit =
        some (mhhw + 6 * FEET_TO_METERS)
    ∧ (GulfOfMaine.calculate_defaults mllw mhhw).gross_range.fail_upper_limit =
        some (mhhw + 6 * FEET_TO_METERS)
    ∧ ((GulfOfMaine.calculate_defaults mllw mhhw).gross_range.fail_lower_limit.getD 0 ≤
        (GulfOfMaine.calculate_defaults mllw mhhw).gross_range.suspect_lower_limit.getD 0)
    ∧ ((GulfOfMaine.calculate_defaults mllw mhhw).gross_range.suspect_lower_limit.getD 0 ≤
        (GulfOfMaine.calculate_defaults mllw mhhw).gross_range.suspect_upper_limit.getD 0)
    ∧ ((GulfOfMaine.calculate_defaults mllw mhhw).gross_range.suspect_upper_limit.getD 0 ≤
        (GulfOfMaine.calculate_defaults mllw mhhw).gross_range.fail_upper_limit.getD 0) := by
  refine ⟨rfl, rfl, rfl, rfl, le_refl _, ?_, le_refl _⟩
  show mllw - 4.5 * FEET_TO_METERS ≤ mhhw + 6 * FEET_TO_METERS
  have hF : (0 : ℚ) < FEET_TO_METERS := by norm_num [FEET_TO_METERS]
  linarith

theorem C10_gulf_of_maine_gross_range_defaults_witness :
    (0 : ℚ) ≤ 1
    ∧ ((GulfOfMaine.calculate_defaults 0 1).gross_range.fail_lower_limit =
        some (0 - 4.5 * FEET_TO_METERS)
      ∧ (GulfOfMaine.calculate_defaults 0 1).gross_range.suspect_lower_limit =
          some (0 - 4.5 * FEET_TO_METERS)
      ∧ (GulfOfMaine.calculate_defaults 0 1).gross_range.suspect_upper_limit =
          some (1 + 6 * FEET_TO_METERS)
      ∧ (GulfOfMaine.calculate_defaults 0 1).gross_range.fail_upper_limit =
          some (1 + 6 * FEET_TO_METERS)
      ∧ ((GulfOfMaine.calculate_defaults 0 1).gross_range.fail_lower_limit.getD 0 ≤
          (GulfOfMaine.calculate_defaults 0 1).gross_range.suspect_lower_limit.getD 0)
      ∧ ((GulfOfMaine.calculate_defaults 0 1).gross_range.suspect_lower_limit.getD 0 ≤
          (GulfOfMaine.calculate_defaults 0 1).gross_range.suspect_upper_limit.getD 0)
      ∧ ((GulfOfMaine.calculate_defaults 0 1).gross_range.suspect_upper_limit.getD 0 ≤
          (GulfOfMaine.calculate_defaults 0 1).gross_range.fail_upper_limit.getD 0)) :=
  ⟨by norm_num, C10_gulf_of_maine_gross_range_defaults 0 1 (by norm_num)⟩

lemma lookupCol_eq_none_of_forall {l : List (String × List Cell)} {k : String}
    (h : ∀ c ∈ l, c.1 ≠ k) : lookupCol l k = none := by
  induction l with
  | nil => rfl
  | cons c rest ih =>
    rw [lookupCol, if_neg (h c (List.mem_cons_self _ _))]
    exact ih (fun d hd => h d (List.mem_cons_of_mem _ hd))

lemma observed_qartod_ne (n : String) :
    ("observed" ++ "_qartod_" ++ n) ≠ "qartod_qc_rollup" := by
  intro h
  have hl := congrArg String.length h
  rw [String.length_append, String.length_append] at hl
  have h1 : "observed".length = 8 := rfl
  have h2 : "_qartod_".length = 8 := rfl
  have h3 : "qartod_qc_rollup".length = 16 := rfl
  rw [h1, h2, h3] at hl
  have hn : n.length = 0 := by omega
  have hd : n.data.length = 0 := hn
  have hnil : n.data = [] := List.length_eq_zero.mp hd
  have he : n = "" := by
    cases n
    simp_all
  rw [he] at h
  exact absurd h (by decide)

/-- C3: the rollup run_qc appends is built by rollupSeq, which at every
index is the worst flag across the enabled tests flags at that index under
the total order FAIL > SUSPECT > NOT_EVALUATED > PASS; with zero enabled
tests the rollup over a series of length N is N NOT_EVALUATED flags. -/
theorem C3_rollup_worst_flag (seqs : List (List QcFlag)) (n i : ℕ) (hi : i < n)
    (df : DataFrame) (cfg : Config) :
    rollupSeq [] n = List.replicate n QcFlag.NOT_EVALUATED
    ∧ (rollupSeq seqs n)[i]? = some (rollup1 (seqs.filterMap (fun s => s[i]?)))
    ∧ (∀ g ∈ seqs.filterMap (fun s => s[i]?),
        flagRank g ≤ flagRank (rollup1 (seqs.filterMap (fun s => s[i]?))))
    ∧ (seqs.filterMap (fun s => s[i]?) ≠ [] →
        rollup1 (seqs.filterMap (fun s => s[i]?)) ∈ seqs.filterMap (fun s => s[i]?))
    ∧ flagRank QcFlag.PASS < flagRank QcFlag.NOT_EVALUATED
    ∧ flagRank QcFlag.NOT_EVALUATED < flagRank QcFlag.SUSPECT
    ∧ flagRank QcFlag.SUSPECT < flagRank QcFlag.FAIL
    ∧ (run_qc df cfg).cols.getLast? =
        some (compute_aggregate_column_name "qc_rollup",
          flagCells (rollupSeq ((testFlagSequences df cfg).map Prod.snd)
            (qcSeries df cfg).length)) := by
  refine ⟨?_, ?_, rollup1_ge _, fun h => rollup1_mem h, by decide, by decide, by decide, ?_⟩
  · simp only [rollupSeq, List.filterMap_nil, rollup1]
    rw [show (fun i : ℕ => QcFlag.NOT_EVALUATED) = Function.const ℕ QcFlag.NOT_EVALUATED from rfl]
    rw [List.map_const, List.length_range]
  · simp [rollupSeq, List.getElem?_map, List.getElem?_range, hi]
  · rw [run_qc]
    exact List.getLast?_concat _

theorem C3_rollup_worst_flag_witness :
    0 < 1
    ∧ (rollupSeq [] 1 = List.replicate 1 QcFlag.NOT_EVALUATED
      ∧ (rollupSeq [[QcFlag.PASS], [QcFlag.FAIL]] 1)[0]? =
          some (rollup1 ([[QcFlag.PASS], [QcFlag.FAIL]].filterMap (fun s => s[0]?)))
      ∧ (∀ g ∈ [[QcFlag.PASS], [QcFlag.FAIL]].filterMap (fun s => s[0]?),
          flagRank g ≤
            flagRank (rollup1 ([[QcFlag.PASS], [QcFlag.FAIL]].filterMap (fun s => s[0]?))))
      ∧ ([[QcFlag.PASS], [QcFlag.FAIL]].filterMap (fun s => s[0]?) ≠ [] →
          rollup1 ([[QcFlag.PASS], [QcFlag.FAIL]].filterMap (fun s => s[0]?)) ∈
            [[QcFlag.PASS], [QcFlag.FAIL]].filterMap (fun s => s[0]?))
      ∧ flagRank QcFlag.PASS < flagRank QcFlag.NOT_EVALUATED
      ∧ flagRank QcFlag.NOT_EVALUATED < flagRank QcFlag.SUSPECT
      ∧ flagRank QcFlag.SUSPECT < flagRank QcFlag.FAIL
      ∧ (run_qc (DataFrame.mk [("time", [some 0]), ("observed", [some 1])])
            (Config.mk "observed" [("gross_range_test", TestConfig.grossRange (0, 2) (0, 2))])).cols.getLast? =
          some (compute_aggregate_column_name "qc_rollup",
            flagCells (rollupSeq
              ((testFlagSequences
                  (DataFrame.mk [("time", [some 0]), ("observed", [some 1])])
                  (Config.mk "observed"
                    [("gross_range_test", TestConfig.grossRange (0, 2) (0, 2))])).map
                Prod.snd)
              (qcSeries (DataFrame.mk [("time", [some 0]), ("observed", [some 1])])
                (Config.mk "observed"
                  [("gross_range_test", TestConfig.grossRange (0, 2) (0, 2))])).length))) :=
  ⟨by decide,
    C3_rollup_worst_flag [[QcFlag.PASS], [QcFlag.FAIL]] 1 0 (by decide)
      (DataFrame.mk [("time", [some 0]), ("observed", [some 1])])
      (Config.mk "observed" [("gross_range_test", TestConfig.grossRange (0, 2) (0, 2))])⟩

/-- C5 (amended): for every dataframe containing the time column and the
var_name column, plot_results reads the per-test flag sequence from the
column named var_name ++ _qartod_ ++ test_name, raises a KeyError naming
that column exactly when it is absent, and returns its contents when it is
present. -/
theorem C5_plot_results_flag_column (data : DataFrame) (test_name var_name : String)
    (time obs q : List Cell)
    (h1 : data.find? "time" = some time)
    (h2 : data.find? var_name = some obs) :
    (plot_results_read data test_name var_name =
        .error (qcColumnKeyError data var_name test_name) ↔
      data.find? (var_name ++ "_qartod_" ++ test_name) = none)
    ∧ (data.find? (var_name ++ "_qartod_" ++ test_name) = some q →
        plot_results_read data test_name var_name = .ok (time, obs, q)) := by
  constructor
  · cases hq : data.find? (var_name ++ "_qartod_" ++ test_name) with
    | none => simp [plot_results_read, h1, h2, hq, qcColumnKeyError]
    | some qc => simp [plot_results_read, h1, h2, hq]
  · intro hq
    simp [plot_results_read, h1, h2, hq]

theorem C5_plot_results_flag_column_witness :
    (DataFrame.mk [("time", [some 0]), ("navd88_meters", [some 1]),
        ("navd88_meters_qartod_gross_range_test", [some 1])]).find? "time" = some [some 0]
    ∧ (DataFrame.mk [("time", [some 0]), ("navd88_meters", [some 1]),
        ("navd88_meters_qartod_gross_range_test", [some 1])]).find? "navd88_meters" =
      some [some 1]
    ∧ ((plot_results_read
          (DataFrame.mk [("time", [some 0]), ("navd88_meters", [some 1]),
            ("navd88_meters_qartod_gross_range_test", [some 1])])
          "gross_range_test" "navd88_meters" =
        .error (qcColumnKeyError
          (DataFrame.mk [("time", [some 0]), ("navd88_meters", [some 1]),
            ("navd88_meters_qartod_gross_range_test", [some 1])])
          "navd88_meters" "gross_range_test") ↔
      (DataFrame.mk [("time", [some 0]), ("navd88_meters", [some 1]),
          ("navd88_meters_qartod_gross_range_test", [some 1])]).find?
        ("navd88_meters" ++ "_qartod_" ++ "gross_range_test") = none)
    ∧ ((DataFrame.mk [("time", [some 0]), ("navd88_meters", [some 1]),
          ("navd88_meters_qartod_gross_range_test", [some 1])]).find?
        ("navd88_meters" ++ "_qartod_" ++ "gross_range_test") = some [some 1] →
        plot_results_read
          (DataFrame.mk [("time", [some 0]), ("navd88_meters", [some 1]),
            ("navd88_meters_qartod_gross_range_test", [some 1])])
          "gross_range_test" "navd88_meters" = .ok ([some 0], [some 1], [some 1]))) :=
  ⟨rfl, rfl,
    C5_plot_results_flag_column
      (DataFrame.mk [("time", [some 0]), ("navd88_meters", [some 1]),
        ("navd88_meters_qartod_gross_range_test", [some 1])])
      "gross_range_test" "navd88_meters" [some 0] [some 1] [some 1] rfl rfl⟩

/-- C5 counterexample to the claim as stated: on the empty dataframe the
flag column is absent, yet plot_results raises the KeyError for the time
column, not a KeyError naming the missing flag column. -/
theorem C5_plot_results_flag_column_counterexample :
    DataFrame.find? (DataFrame.mk []) "navd88_meters_qartod_gross_range_test" = none
    ∧ plot_results_read (DataFrame.mk []) "gross_range_test" "navd88_meters" =
        .error (.keyError "time")
    ∧ plot_results_read (DataFrame.mk []) "gross_range_test" "navd88_meters" ≠
        .error (qcColumnKeyError (DataFrame.mk []) "navd88_meters" "gross_range_test") := by
  refine ⟨rfl, rfl, ?_⟩
  intro h
  have := congrArg (fun r =>
    match r with
    | Except.error (PlotError.keyError msg) => msg
    | Except.ok _ => "") h
  exact absurd this (by decide)

/-- C6: run_qc computes the aggregate under the name qc_rollup and the
store prefixes it to the stable key qartod_qc_rollup; the returned
dataframe contains that column holding the rollup, and it is the column
plot_aggregate looks up under its default aggregate_name. -/
theorem C6_rollup_stable_key (df : DataFrame) (cfg : Config)
    (h0 : df.find? "qartod_qc_rollup" = none)
    (hv : cfg.stream = "observed") :
    compute_aggregate_column_name "qc_rollup" = "qartod_qc_rollup"
    ∧ ("qartod_qc_rollup",
        flagCells (rollupSeq ((testFlagSequences df cfg).map Prod.snd)
          (qcSeries df cfg).length)) ∈ (run_qc df cfg).cols
    ∧ (run_qc df cfg).find? plot_aggregate_default_aggregate_name =
        some (flagCells (rollupSeq ((testFlagSequences df cfg).map Prod.snd)
          (qcSeries df cfg).length)) := by
  have hname : compute_aggregate_column_name "qc_rollup" = "qartod_qc_rollup" := rfl
  refine ⟨rfl, ?_, ?_⟩
  · rw [run_qc, hname]
    exact List.mem_append_right _ (List.mem_singleton.mpr rfl)
  · have hkey : plot_aggregate_default_aggregate_name = "qartod_qc_rollup" := rfl
    rw [DataFrame.find?, run_qc, hkey]
    have htests : lookupCol
        ((testFlagSequences df cfg).map
          (fun tc => (cfg.stream ++ "_qartod_" ++ tc.1, flagCells tc.2)))
        "qartod_qc_rollup" = none := by
      refine lookupCol_eq_none_of_forall ?_
      intro c hc
      obtain ⟨tc, htc, rfl⟩ := List.mem_map.mp hc
      rw [hv]
      exact observed_qartod_ne tc.1
    have hdf : lookupCol
        (df.cols ++ (testFlagSequences df cfg).map
          (fun tc => (cfg.stream ++ "_qartod_" ++ tc.1, flagCells tc.2)))
        "qartod_qc_rollup" = none := by
      rw [lookupCol_append_of_none _ _ h0]
      exact htests
    rw [lookupCol_append_of_none _ _ hdf, hname]
    simp [lookupCol]

theorem C6_rollup_stable_key_witness :
    (DataFrame.mk [("time", [some 0]), ("observed", [some 1])]).find?
      "qartod_qc_rollup" = none
    ∧ (Config.mk "observed"
        ([] : List (String × TestConfig))).stream = "observed"
    ∧ (compute_aggregate_column_name "qc_rollup" = "qartod_qc_rollup"
      ∧ ("qartod_qc_rollup",
          flagCells (rollupSeq
            ((testFlagSequences (DataFrame.mk [("time", [some 0]), ("observed", [some 1])])
                (Config.mk "observed" ([] : List (String × TestConfig)))).map Prod.snd)
            (qcSeries (DataFrame.mk [("time", [some 0]), ("observed", [some 1])])
              (Config.mk "observed" ([] : List (String × TestConfig)))).length)) ∈
          (run_qc (DataFrame.mk [("time", [some 0]), ("observed", [some 1])])
            (Config.mk "observed" ([] : List (String × TestConfig)))).cols
      ∧ (run_qc (DataFrame.mk [("time", [some 0]), ("observed", [some 1])])
            (Config.mk "observed" ([] : List (String × TestConfig)))).find?
          plot_aggregate_default_aggregate_name =
        some (flagCells (rollupSeq
          ((testFlagSequences (DataFrame.mk [("time", [some 0]), ("observed", [some 1])])
              (Config.mk "observed" ([] : List (String × TestConfig)))).map Prod.snd)
          (qcSeries (DataFrame.mk [("time", [some 0]), ("observed", [some 1])])
            (Config.mk "observed" ([] : List (String × TestConfig)))).length))) :=
  ⟨rfl, rfl,
    C6_rollup_stable_key (DataFrame.mk [("time", [some 0]), ("observed", [some 1])])
      (Config.mk "observed" ([] : List (String × TestConfig))) rfl rfl⟩

/-- C8: run_qc preserves the input frame: the returned dataframe starts
with every input column unchanged, has the same number of rows as the
input, and every column of the result, the appended per-test flag columns
and the rollup included, has the input row count. -/
theorem C8_run_qc_frame (df : DataFrame) (cfg : Config) (tc oc : List Cell)
    (hw : df.Wellformed)
    (ht : df.find? "time" = some tc)
    (ho : df.find? cfg.stream = some oc) :
    (run_qc df cfg).cols.take df.cols.length = df.cols
    ∧ (run_qc df cfg).nrows = df.nrows
    ∧ ∀ c ∈ (run_qc df cfg).cols, c.2.length = df.nrows := by
  have htl : tc.length = df.nrows := hw _ (lookupCol_mem ht)
  have hol : oc.length = df.nrows := hw _ (lookupCol_mem ho)
  have ht2 : lookupCol df.cols "time" = some tc := ht
  have ho2 : lookupCol df.cols cfg.stream = some oc := ho
  have hct : df.column "time" = tc := by
    rw [DataFrame.column, DataFrame.find?, ht2]
    rfl
  have hco : df.column cfg.stream = oc := by
    rw [DataFrame.column, DataFrame.find?, ho2]
    rfl
  have hs : (qcSeries df cfg).length = df.nrows := by
    rw [qcSeries, List.length_zipWith, hct, hco, htl, hol, min_self]
  refine ⟨?_, ?_, ?_⟩
  · rw [run_qc]
    show ((df.cols ++ _) ++ _).take df.cols.length = df.cols
    rw [List.append_assoc]
    exact List.take_left _ _
  · cases hcols : df.cols with
    | nil =>
      rw [DataFrame.find?, hcols] at ht
      cases ht
    | cons c rest =>
      simp [run_qc, DataFrame.nrows, hcols]
  · intro c hc
    rw [run_qc] at hc
    rcases List.mem_append.mp hc with hc1 | hc2
    · rcases List.mem_append.mp hc1 with hdf | hmap
      · exact hw c hdf
      · obtain ⟨entry, hentry, rfl⟩ := List.mem_map.mp hmap
        obtain ⟨qe, hqe, rfl⟩ := List.mem_map.mp hentry
        show (flagCells (run_test qe.2 (qcSeries df cfg))).length = df.nrows
        rw [flagCells, List.length_map, run_test_length, hs]
    · rcases List.mem_singleton.mp hc2 with rfl
      show (flagCells (rollupSeq _ (qcSeries df cfg).length)).length = df.nrows
      rw [flagCells, List.length_map, rollupSeq_length, hs]

theorem C8_run_qc_frame_witness :
    DataFrame.Wellformed
      (DataFrame.mk [("time", [some 0, some 60]), ("observed", [some 1, some 2])])
    ∧ (DataFrame.mk [("time", [some 0, some 60]),
        ("observed", [some 1, some 2])]).find? "time" = some [some 0, some 60]
    ∧ (DataFrame.mk [("time", [some 0, some 60]),
        ("observed", [some 1, some 2])]).find?
      (Config.mk "observed"
        [("gross_range_test", TestConfig.grossRange (0, 3) (0, 3))]).stream =
      some [some 1, some 2]
    ∧ ((run_qc
          (DataFrame.mk [("time", [some 0, some 60]), ("observed", [some 1, some 2])])
          (Config.mk "observed"
            [("gross_range_test", TestConfig.grossRange (0, 3) (0, 3))])).cols.take
        (DataFrame.mk [("time", [some 0, some 60]),
          ("observed", [some 1, some 2])]).cols.length =
      (DataFrame.mk [("time", [some 0, some 60]),
        ("observed", [some 1, some 2])]).cols
      ∧ (run_qc
          (DataFrame.mk [("time", [some 0, some 60]), ("observed", [some 1, some 2])])
          (Config.mk "observed"
            [("gross_range_test", TestConfig.grossRange (0, 3) (0, 3))])).nrows =
        (DataFrame.mk [("time", [some 0, some 60]),
          ("observed", [some 1, some 2])]).nrows
      ∧ ∀ c ∈ (run_qc
          (DataFrame.mk [("time", [some 0, some 60]), ("observed", [some 1, some 2])])
          (Config.mk "observed"
            [("gross_range_test", TestConfig.grossRange (0, 3) (0, 3))])).cols,
          c.2.length =
            (DataFrame.mk [("time", [some 0, some 60]),
              ("observed", [some 1, some 2])]).nrows) :=
  ⟨by intro c hc; fin_cases hc <;> rfl, rfl, rfl,
    C8_run_qc_frame
      (DataFrame.mk [("time", [some 0, some 60]), ("observed", [some 1, some 2])])
      (Config.mk "observed" [("gross_range_test", TestConfig.grossRange (0, 3) (0, 3))])
      [some 0, some 60] [some 1, some 2] (by intro c hc; fin_cases hc <;> rfl) rfl rfl⟩
